import Mathlib

/-!
# PeerHost — verification of the coordinator and peer sync logic

Shallow embedding of the parts of the PeerHost repository that the
specification's testable properties talk about:

* `app/services/host_service.py` — the session (lease) document and its
  operations (`_is_session_expired`, `get_session`, `reset_session`,
  `heartbeat_session`, `auth_claim_session`);
* `app/routers/hosts.py` — the HTTP handlers for claim / heartbeat
  (these handlers call the async service functions *without* `await`,
  so their control flow manipulates coroutine objects; the embedding
  models Python's semantics for that faithfully);
* `app/services/file_service.py` — `save_file` / `get_file` with the
  restricted / ignored / meta / traversal checks;
* `app/routers/files.py` — `upload_file`;
* `client/services/sync_service.py` — the uploader's retry loop;
* `client/client.py` — the heartbeat monitor loop step.

Timestamps (ISO-8601 UTC strings in the source) are modelled as integers;
SHA-256 is modelled as an explicit hash-function parameter, since the code
only ever compares digests for equality.
-/

namespace PeerHost

/-! ## Session document (host_service.py data model) -/

/-- The `host` sub-dictionary of the session document. -/
structure HostInfo where
  host_id : Option String
  ip_address : Option String
  token : Option String
deriving Repr, DecidableEq

/-- The `timestamps` sub-dictionary of the session document.
ISO instants are modelled as integers. -/
structure Timestamps where
  started_at : Option Int
  last_heartbeat : Option Int
  expires_at : Option Int
deriving Repr, DecidableEq

/-- The session document persisted at `meta/session.json`. -/
structure SessionDoc where
  is_locked : Bool
  host : HostInfo
  timestamps : Timestamps
deriving Repr, DecidableEq

/-- Coordinator-side persistent state relevant to the session endpoints:
whether the storage root exists, and the content of the session file
(`none` = the file does not exist). A corrupted file is not modelled
(`get_session` maps it to the same observable as a missing file). -/
structure Storage where
  storageExists : Bool
  sessionFile : Option SessionDoc
deriving Repr, DecidableEq

/-- Model of `host_service._is_session_expired`: not locked → not expired; locked with
no `expires_at` → treated as expired; otherwise expired iff `now > expires_at`. -/
def isSessionExpired (s : SessionDoc) (now : Int) : Bool :=
  if ¬ s.is_locked then false
  else
    match s.timestamps.expires_at with
    | none => true
    | some e => decide (e < now)

/-- The document written by `host_service.reset_session` (via `update_session`,
which replaces the `is_locked`, `host` and `timestamps` keys wholesale). -/
def resetDoc : SessionDoc :=
  { is_locked := false
    host := { host_id := none, ip_address := none, token := none }
    timestamps := { started_at := none, last_heartbeat := none, expires_at := none } }

/-- Model of `host_service.get_session`: `none` when the storage root or the session file
is absent; if the stored session is expired, reset it (write-back) and return
the reset value; otherwise return the stored session.  (The source additionally
attaches the `heartbeat_interval` / `lock_timeout` config constants to the
returned dict; that response metadata is not part of the persisted document and
is not modelled.) -/
def get_session (st : Storage) (now : Int) : Option SessionDoc × Storage :=
  if ¬ st.storageExists then (none, st)
  else
    match st.sessionFile with
    | none => (none, st)
    | some s =>
      if isSessionExpired s now then
        (some resetDoc, { st with sessionFile := some resetDoc })
      else (some s, st)

/-- Model of `host_service.auth_claim_session`: `get_session` (triggering lazy expiry),
then require locked, matching `host_id` and matching `ip_address`. -/
def auth_claim_session (st : Storage) (now : Int) (hostId ip : String) :
    Bool × Storage :=
  match get_session st now with
  | (none, st') => (false, st')
  | (some s, st') =>
    if ¬ s.is_locked then (false, st')
    else if s.host.host_id ≠ some hostId then (false, st')
    else if s.host.ip_address ≠ some ip then (false, st')
    else (true, st')

/-- Model of `host_service.heartbeat_session` with `LOCK_TIMEOUT = lockTimeout`:
`get_session`; missing session is an error (`FileNotFoundError`); an unlocked
session is returned unchanged; otherwise `last_heartbeat := now` and
`expires_at := now + lockTimeout` are written back (`update_session` merges the
new `timestamps` dict over the old one, keeping `started_at`). -/
def heartbeat_session (lockTimeout : Int) (st : Storage) (now : Int) :
    Option SessionDoc × Storage :=
  match get_session st now with
  | (none, st') => (none, st')  -- FileNotFoundError("Session not found")
  | (some s, st') =>
    if ¬ s.is_locked then (some s, st')
    else
      let s' : SessionDoc :=
        { s with timestamps :=
            { s.timestamps with
                last_heartbeat := some now
                expires_at := some (now + lockTimeout) } }
      (some s', { st' with sessionFile := some s' })

/-! ## C3 — lazy expiry -/

/-- C3: if the stored session is locked, its `expires_at` is
`last_heartbeat + lock_timeout`, and more than `lock_timeout` has elapsed since
the last heartbeat (`h + lt < now`), then `get_session` resets the session and
returns the reset value with `is_locked = false`; the reset value is also what
was written back. -/
theorem c3_get_session_lazy_expiry (st : Storage) (s : SessionDoc)
    (now h lt : Int)
    (hex : st.storageExists = true)
    (hf : st.sessionFile = some s)
    (hl : s.is_locked = true)
    (hhb : s.timestamps.last_heartbeat = some h)
    (he : s.timestamps.expires_at = some (h + lt))
    (hnow : h + lt < now) :
    get_session st now =
      (some resetDoc, { st with sessionFile := some resetDoc }) ∧
    resetDoc.is_locked = false := by
  refine ⟨?_, rfl⟩
  simp only [get_session, hex, Bool.not_true, Bool.false_eq_true, if_false, hf]
  have hexp : isSessionExpired s now = true := by
    simp [isSessionExpired, hl, he, hnow]
  simp [hexp]

/-- Witness for C3 at a concrete expired session. -/
theorem c3_get_session_lazy_expiry_witness :
    get_session
      { storageExists := true
        sessionFile := some
          { is_locked := true
            host := { host_id := some "alice1", ip_address := some "1.1.1.1",
                      token := some "t" }
            timestamps := { started_at := some 0, last_heartbeat := some 0,
                            expires_at := some 60 } } } 61 =
      (some resetDoc,
        { storageExists := true, sessionFile := some resetDoc }) ∧
    resetDoc.is_locked = false :=
  c3_get_session_lazy_expiry
    { storageExists := true
      sessionFile := some
        { is_locked := true
          host := { host_id := some "alice1", ip_address := some "1.1.1.1",
                    token := some "t" }
          timestamps := { started_at := some 0, last_heartbeat := some 0,
                          expires_at := some 60 } } }
    { is_locked := true
      host := { host_id := some "alice1", ip_address := some "1.1.1.1",
                token := some "t" }
      timestamps := { started_at := some 0, last_heartbeat := some 0,
                      expires_at := some 60 } }
    61 0 60 rfl rfl rfl rfl rfl (by decide)

/-! ## The `hosts.py` router handlers

The handlers in `app/routers/hosts.py` invoke the async service functions
*without* `await`.  In Python, such a call merely builds a coroutine object:
its body never runs, the object is truthy, and it has no `get` attribute or
item access — so `if not host_service.get_session():` always skips, and
`session.get("is_locked")` raises `AttributeError` (an unhandled exception,
which FastAPI turns into an HTTP 500 response). -/

/-- A Python value as the buggy handlers see it: a coroutine object produced
by calling an `async def` function without `await`. -/
inductive PyVal where
  | coroutine (funcName : String)
deriving Repr, DecidableEq

/-- Python truthiness: a coroutine object has no `__bool__`/`__len__`, so it
is truthy. -/
def pyTruthy : PyVal → Bool
  | .coroutine _ => true

/-- Whether the value has a `get` attribute: a coroutine object does not, so
`session.get(...)` raises `AttributeError`. -/
def pyHasGetAttr : PyVal → Bool
  | .coroutine _ => false

/-- Outcome of a request handler: a produced HTTP response, or an unhandled
Python exception (which the framework reports as HTTP 500). -/
inductive RouteResult where
  | http (code : Nat)
  | unhandled (excName : String)
deriving Repr, DecidableEq

/-- Model of `hosts.py::claim_session` (`POST /world/session`).

```
session = host_service.get_session()          # missing await → coroutine object
if not session: ...                           # dead: coroutine is truthy
elif session.get("is_locked"): ...            # AttributeError on the coroutine
```

The handler never acquires `host_service._session_lock` and never calls
`host_service.try_claim_session` (no caller of that function exists in the
repository); the attribute access on the coroutine raises before any branch
can produce 201/404/409, and the session document is never read or written. -/
def claim_session_route (st : Storage) : RouteResult × Storage :=
  let session := PyVal.coroutine "get_session"
  if pyTruthy session = false then
    -- `if not session:` branch — would create the session / answer 404/409
    (.http 404, st)
  else if pyHasGetAttr session = false then
    -- `session.get("is_locked")` raises AttributeError → HTTP 500
    (.unhandled "AttributeError", st)
  else
    -- rest of the handler (token generation, update_session, 201) — dead code
    (.http 201, st)

/-- Response body of the heartbeat endpoint: `{"status": "ok"}`.  It carries
no `host_id` field; the model keeps the field as an `Option` to state that. -/
structure HeartbeatBody where
  status : String
  host_id : Option String
deriving Repr, DecidableEq

/-- Model of `hosts.py::heartbeat` (`POST /world/session/heartbeat`), reached after the
`get_session_token` dependency has decoded the bearer token.

```
if not host_service.auth_claim_session(...):  # coroutine is truthy → skipped
    raise HTTPException(401, ...)
try:
    host_service.heartbeat_session()          # coroutine never awaited → no-op
except FileNotFoundError: ...                 # unreachable: nothing ran
return {"status": "ok"}
```

The holder check is skipped and `heartbeat_session`'s body never executes, so
the handler answers 200 and the stored session document is untouched. -/
def heartbeat_route (st : Storage) : (Nat × HeartbeatBody) × Storage :=
  if pyTruthy (PyVal.coroutine "auth_claim_session") = false then
    ((401, { status := "error", host_id := none }), st)
  else
    ((200, { status := "ok", host_id := none }), st)

/-! ## C1, C2 — the claim endpoint -/

/-- A fresh, existing, unlocked session document. -/
def freshUnlockedStorage : Storage :=
  { storageExists := true, sessionFile := some resetDoc }

/-- A storage whose session is currently locked (held by `alice1`). -/
def lockedStorage : Storage :=
  { storageExists := true
    sessionFile := some
      { is_locked := true
        host := { host_id := some "alice1", ip_address := some "1.1.1.1",
                  token := some "t" }
        timestamps := { started_at := some 0, last_heartbeat := some 0,
                        expires_at := some 60 } } }

/-- A coordinator with the world storage absent. -/
def noStorage : Storage := { storageExists := false, sessionFile := none }

/-- C1: every `POST /world/session` request — regardless of the session state
it observes, hence in every interleaving of N concurrent claim requests on a
fresh unlocked session — ends in an unhandled `AttributeError` (HTTP 500) and
leaves the session document unchanged.  No request returns 201 and none
returns 409, and the handler never holds the process-wide mutex (it never
calls `try_claim_session`, the only function that acquires it). -/
theorem c1_claim_requests_all_crash (st : Storage) :
    claim_session_route st = (.unhandled "AttributeError", st) ∧
    (claim_session_route st).1 ≠ .http 201 ∧
    (claim_session_route st).1 ≠ .http 409 := by
  refine ⟨rfl, by simp [claim_session_route, pyTruthy, pyHasGetAttr], ?_⟩
  simp [claim_session_route, pyTruthy, pyHasGetAttr]

/-- C2: the claim endpoint violates its 404/409/201 contract at each of the
three states the claim distinguishes: with the world storage absent it does
not answer 404, with a locked unexpired session it does not answer 409, and
with a fresh unlocked session it does not answer 201 — in all three cases it
raises `AttributeError` (HTTP 500). -/
theorem c2_claim_contract_violated :
    (claim_session_route noStorage).1 = .unhandled "AttributeError" ∧
    (claim_session_route noStorage).1 ≠ .http 404 ∧
    (claim_session_route lockedStorage).1 = .unhandled "AttributeError" ∧
    (claim_session_route lockedStorage).1 ≠ .http 409 ∧
    (claim_session_route freshUnlockedStorage).1 = .unhandled "AttributeError" ∧
    (claim_session_route freshUnlockedStorage).1 ≠ .http 201 := by
  refine ⟨rfl, ?_, rfl, ?_, rfl, ?_⟩ <;>
    simp [claim_session_route, pyTruthy, pyHasGetAttr, noStorage,
      lockedStorage, freshUnlockedStorage]

/-! ## C4 — the heartbeat endpoint -/

/-- C4: every heartbeat request that reaches the handler returns 200 with body
`{"status": "ok"}` while leaving the stored session document — in particular
`last_heartbeat` and `expires_at` — completely unchanged: the handler never
executes `heartbeat_session` (the coroutine is not awaited) and never performs
the holder check (`auth_claim_session`'s coroutine is truthy, so the 401
branch is dead). -/
theorem c4_heartbeat_route_writes_nothing (st : Storage) :
    heartbeat_route st = ((200, { status := "ok", host_id := none }), st) ∧
    (heartbeat_route st).2.sessionFile = st.sessionFile := by
  exact ⟨rfl, rfl⟩

/-! ## Paths and patterns (file_service.py)

`pathlib.PurePosixPath` semantics for the constructs the source uses:
`.parts` splits on `/` and drops empty components and `"."` (keeping `".."`),
`.name` is the last such component.  `".." in relative_path` is a *substring*
test on the raw string.  `fnmatch.fnmatch` matches a glob pattern against the
whole string ( `*` matches any run of characters, `/` included; `?` matches
one character; the policy patterns use no character classes). -/

/-- Split a character list on a separator character (Python `str.split('/')`,
which underlies `pathlib`'s component splitting). -/
def splitOnChar (sep : Char) : List Char → List (List Char)
  | [] => [[]]
  | c :: cs =>
    let r := splitOnChar sep cs
    if c = sep then [] :: r
    else
      match r with
      | [] => [[c]]
      | h :: t => (c :: h) :: t

/-- Components of a relative POSIX path, as `pathlib` `.parts` yields them (the leading `/` marker of an
absolute path is not kept; absolute paths are handled via `startsSlash`). -/
def pyParts (rel : String) : List String :=
  ((splitOnChar '/' rel.data).map String.mk).filter (fun c => c != "" && c != ".")

/-- The final component (`pathlib` `.name`), or `""` when there is none. -/
def pyName (rel : String) : String := (pyParts rel).getLast?.getD ""

/-- Does the character list start with the given pattern? -/
def startsWithChars : List Char → List Char → Bool
  | _, [] => true
  | [], _ :: _ => false
  | c :: cs, p :: ps => (c == p) && startsWithChars cs ps

/-- Does the character list contain the pattern as a contiguous sublist? -/
def containsSub : List Char → List Char → Bool
  | [], pat => startsWithChars [] pat
  | c :: t, pat => startsWithChars (c :: t) pat || containsSub t pat

/-- Python's `".." in s` substring test. -/
def hasDotDot (s : String) : Bool := containsSub s.data ['.', '.']

/-- Python's `s.startswith("/")`. -/
def startsSlash (s : String) : Bool := startsWithChars s.data ['/']

/-- Fuel-recursive core of `fnmatch`-style glob matching, written so that it reduces by
structural recursion (every step shrinks `pattern.length + string.length`,
so the fuel supplied by `globMatch` below never runs out). -/
def globMatchAux : Nat → List Char → List Char → Bool
  | 0, _, _ => false
  | fuel + 1, pat, s =>
    match pat, s with
    | [], [] => true
    | [], _ :: _ => false
    | '*' :: ps, [] => globMatchAux fuel ps []
    | '*' :: ps, c :: cs =>
      globMatchAux fuel ps (c :: cs) || globMatchAux fuel ('*' :: ps) cs
    | '?' :: ps, _ :: cs => globMatchAux fuel ps cs
    | _ :: _, [] => false
    | p :: ps, c :: cs => (p == c) && globMatchAux fuel ps cs

/-- Glob matching of a pattern against a whole string, as `fnmatch` does it
(`*` matches any run of characters, `/` included; `?` one character; the
policy patterns use no character classes). -/
def globMatch (pat s : List Char) : Bool :=
  globMatchAux (pat.length + s.length + 1) pat s

/-- The set `file_service.RESTRICTED_PATTERNS` (literal names, matched by equality on
the full relative path or on the file name). -/
def RESTRICTED_PATTERNS : List String :=
  ["server.properties", "permissions.json", "ops.json", "whitelist.json",
   "banned-players.json", "banned-ips.json", "eula.txt", "server.jar",
   "cert.pem", "config.yaml"]

/-- The set `file_service.IGNORED_PATTERNS` (glob patterns, matched with `fnmatch`
against the full relative path). -/
def IGNORED_PATTERNS : List String :=
  ["*.tmp", "*.log", "*.lock", "desktop.ini", ".DS_Store",
   "__pycache__/*", "*.bak", "*~"]

/-- The restricted-policy hit of `save_file` step 1: full-path match or
file-name-only match against `RESTRICTED_PATTERNS`. -/
def restrictedHit (rel : String) : Bool :=
  RESTRICTED_PATTERNS.contains rel || RESTRICTED_PATTERNS.contains (pyName rel)

/-- The ignored-policy hit of `save_file` step 2. -/
def ignoredHit (rel : String) : Bool :=
  IGNORED_PATTERNS.any (fun p => globMatch p.data rel.data)

/-! ## Filesystem model

Files on disk, keyed by their absolute path given as a component list
(directories are implicit).  `world_root` (`WORLD_DATA_PATH`) is itself a
component list; the coordinator's private `meta/` directory lives *next to*
it, under `STORAGE_PATH`. -/

abbrev Bytes := List Nat
abbrev FsKey := List String
abbrev Fs := List (FsKey × Bytes)

def fsLookup : Fs → FsKey → Option Bytes
  | [], _ => none
  | (k, v) :: t, key => if k = key then some v else fsLookup t key

def fsErase : Fs → FsKey → Fs
  | [], _ => []
  | (k, v) :: t, key => if k = key then fsErase t key else (k, v) :: fsErase t key

/-- Create or overwrite the file at `key`. -/
def fsInsert (fs : Fs) (key : FsKey) (v : Bytes) : Fs := (key, v) :: fsErase fs key

/-- Extend the last component of a path with a suffix — the shape of
`f"{target_path}.{uuid.uuid4().hex[:8]}.tmp"`. -/
def appendToLast : FsKey → String → FsKey
  | [], s => [s]
  | [a], s => [a ++ s]
  | a :: b :: rest, s => a :: appendToLast (b :: rest) s

/-- The unique temporary sibling of `target` for a given nonce. -/
def tempKey (target : FsKey) (nonce : String) : FsKey :=
  appendToLast target ("." ++ nonce ++ ".tmp")

/-- OS-level resolution of `..` components (applied by the kernel when a path
is opened; `..` at the filesystem root stays at the root). -/
def osNorm (p : FsKey) : FsKey :=
  p.foldl (fun acc c => if c = ".." then acc.dropLast else acc ++ [c]) []

/-- Evaluation of `root_path / relative_path` in `pathlib`: an absolute `relative_path`
replaces `root` entirely; otherwise the components are appended. -/
def joinUnder (root : FsKey) (rel : String) : FsKey :=
  if startsSlash rel then pyParts rel else root ++ pyParts rel

/-- Whether `key` lies inside the subtree rooted at `root`. -/
def keyUnder : FsKey → FsKey → Bool
  | [], _ => true
  | _ :: _, [] => false
  | a :: as, b :: bs => (a == b) && keyUnder as bs

/-! ## `file_service.save_file` and `file_service.get_file` -/

/-- The exceptions `save_file` raises, by reason.  The router maps
`PermissionError` to HTTP 403 and `ValueError` to HTTP 400. -/
inductive SaveErr where
  | restrictedFile   -- PermissionError: restricted pattern hit
  | ignoredPolicy    -- PermissionError: ignored pattern hit
  | invalidPath      -- ValueError: `..` substring or leading `/`
  | metaForbidden    -- PermissionError: a `meta` path component
  | integrity        -- ValueError: hash mismatch
deriving Repr, DecidableEq

/-- HTTP status the `files.py` router answers for each `save_file` exception
(`except PermissionError → 403`, `except ValueError → 400`). -/
def statusOfSaveErr : SaveErr → Nat
  | .restrictedFile => 403
  | .ignoredPolicy => 403
  | .metaForbidden => 403
  | .invalidPath => 400
  | .integrity => 400

/-- Model of `file_service.save_file`, parametric in the digest function (`hashlib`
only feeds the equality test with `client_hash`).  Steps, in source order:
restricted check, ignored check, `..`/absolute check, meta-component check,
stream into a unique temp sibling, digest comparison (mismatch → unlink temp,
`ValueError`), atomic replace of the target by the temp file. -/
def save_file (hashFn : Bytes → String) (root : FsKey) (fs : Fs) (rel : String)
    (content : Bytes) (clientHash : String) (nonce : String) :
    Option SaveErr × Fs :=
  if restrictedHit rel then (some .restrictedFile, fs)
  else if ignoredHit rel then (some .ignoredPolicy, fs)
  else if hasDotDot rel || startsSlash rel then (some .invalidPath, fs)
  else if (pyParts rel).contains "meta" then (some .metaForbidden, fs)
  else
    let target := root ++ pyParts rel
    let temp := tempKey target nonce
    let fs1 := fsInsert fs temp content
    if hashFn content != clientHash then
      -- integrity mismatch: delete the temp file, raise ValueError
      (some .integrity, fsErase fs1 temp)
    else
      -- commit: (unlink target if needed and) rename temp → target
      (none, fsInsert (fsErase fs1 temp) target content)

/-- Model of `file_service.get_file`: only the meta-component check guards the path;
the bytes at `WORLD_DATA_PATH / relative_path` (as the operating system
resolves it, `..` components included) are returned, `none` when absent. -/
def get_file (root : FsKey) (fs : Fs) (rel : String) : Option Bytes :=
  if (pyParts rel).contains "meta" then none
  else fsLookup fs (osNorm (joinUnder root rel))

/-! ## `files.py::upload_file` (`POST /world/files/{relative_path}`) -/

/-- The payload fields of a decoded bearer token that the handlers use. -/
structure TokenPayload where
  host_id : String
  ip_address : String
deriving Repr, DecidableEq

/-- Model of `files.py::upload_file`, reached after `get_session_token` decoded the
token: holder check (`await host_service.auth_claim_session`, properly
awaited here) → 401; missing `X-File-Hash` → 400; then `save_file` with the
exception mapping `PermissionError → 403`, `ValueError → 400`; success → 201.
Returns `(status, session storage, world files)`. -/
def upload_file (hashFn : Bytes → String) (root : FsKey) (st : Storage)
    (now : Int) (fs : Fs) (tok : TokenPayload) (xFileHash : Option String)
    (rel : String) (content : Bytes) (nonce : String) :
    Nat × Storage × Fs :=
  let auth := auth_claim_session st now tok.host_id tok.ip_address
  if auth.1 = false then (401, auth.2, fs)
  else
    match xFileHash with
    | none => (400, auth.2, fs)
    | some h =>
      match save_file hashFn root fs rel content h nonce with
      | (some e, fs') => (statusOfSaveErr e, auth.2, fs')
      | (none, fs') => (201, auth.2, fs')

/-! ## Filesystem lemmas -/

theorem fsLookup_fsErase_self (fs : Fs) (k : FsKey) :
    fsLookup (fsErase fs k) k = none := by
  induction fs with
  | nil => rfl
  | cons p t ih =>
    obtain ⟨k', v⟩ := p
    by_cases h : k' = k <;> simp [fsErase, fsLookup, h, ih]

theorem fsLookup_fsErase_ne (fs : Fs) (k k' : FsKey) (h : k' ≠ k) :
    fsLookup (fsErase fs k) k' = fsLookup fs k' := by
  induction fs with
  | nil => rfl
  | cons p t ih =>
    obtain ⟨k0, v⟩ := p
    by_cases h0 : k0 = k
    · subst h0
      simp [fsErase, fsLookup, ih, Ne.symm h]
    · by_cases h1 : k0 = k'
      · subst h1
        simp [fsErase, fsLookup, h0]
      · simp [fsErase, fsLookup, h0, h1, ih]

theorem string_append_ne_left (a s : String) (hs : s ≠ "") : a ++ s ≠ a := by
  intro h
  apply hs
  have h2 := congrArg String.length h
  rw [String.length_append] at h2
  have h3 : s.length = 0 := by omega
  cases s with
  | mk data =>
    cases data with
    | nil => rfl
    | cons c cs => simp [String.length] at h3

theorem appendToLast_ne (p : FsKey) (s : String) (hs : s ≠ "") :
    appendToLast p s ≠ p := by
  induction p with
  | nil => simp [appendToLast]
  | cons a rest ih =>
    cases rest with
    | nil =>
      intro h
      injection h with h1 h2
      exact string_append_ne_left a s hs h1
    | cons b r2 =>
      intro h
      apply ih
      injection h with h1 h2

theorem dotTmp_ne_empty (nonce : String) : ("." ++ nonce ++ ".tmp") ≠ "" := by
  intro h
  have h2 := congrArg String.length h
  rw [String.length_append, String.length_append] at h2
  have hdot : (".").length = 1 := rfl
  have htmp : (".tmp").length = 4 := rfl
  have hempty : ("" : String).length = 0 := rfl
  rw [hdot, htmp, hempty] at h2
  omega

theorem tempKey_ne_target (target : FsKey) (nonce : String) :
    tempKey target nonce ≠ target :=
  appendToLast_ne target _ (dotTmp_ne_empty nonce)

/-! ## C5 — path sandbox -/

/-- C5: the download path does *not* confine `..` paths to `world_root`.
With `world_root = srv/storage/world_data` and a file `srv/storage/settings.json`
lying *outside* the world root (it is the coordinator's own settings file),
`get_file` on the request path `../settings.json` passes its only check (no
`meta` component), resolves to the out-of-root file, and returns its bytes —
the resolved key is not under `world_root`. -/
theorem c5_get_file_reads_outside_world_root :
    get_file ["srv", "storage", "world_data"]
        [(["srv", "storage", "settings.json"], [42])] "../settings.json"
      = some [42] ∧
    osNorm (joinUnder ["srv", "storage", "world_data"] "../settings.json")
      = ["srv", "storage", "settings.json"] ∧
    keyUnder ["srv", "storage", "world_data"]
        (osNorm (joinUnder ["srv", "storage", "world_data"] "../settings.json"))
      = false := by
  decide

/-! ## C6 — restricted uploads -/

/-- C6 counterexample: the claim "a PUT to a restricted path always returns
403" fails — a PUT for the restricted file `eula.txt` whose bearer token
does not match the current holder is answered 401 (the holder check precedes
the policy check), not 403. -/
theorem c6_counterexample_restricted_put_401 :
    restrictedHit "eula.txt" = true ∧
    (upload_file (fun _ => "h") ["wd"] lockedStorage 10 []
        ⟨"bob222", "2.2.2.2"⟩ (some "h") "eula.txt" [1] "n").1 = 401 ∧
    (upload_file (fun _ => "h") ["wd"] lockedStorage 10 []
        ⟨"bob222", "2.2.2.2"⟩ (some "h") "eula.txt" [1] "n").1 ≠ 403 := by
  decide

/-- C6 (amended): a PUT to a path hitting the restricted policy — by
full-path or file-name-only match — never succeeds (never 201) and never
changes the stored world content; whenever the request passes the holder
check and carries the `X-File-Hash` header, the answer is exactly 403. -/
theorem c6_restricted_upload_never_succeeds (hashFn : Bytes → String)
    (root : FsKey) (st : Storage) (now : Int) (fs : Fs) (tok : TokenPayload)
    (xh : Option String) (rel : String) (content : Bytes) (nonce : String)
    (hres : restrictedHit rel = true) :
    (upload_file hashFn root st now fs tok xh rel content nonce).1 ≠ 201 ∧
    (upload_file hashFn root st now fs tok xh rel content nonce).2.2 = fs ∧
    ((auth_claim_session st now tok.host_id tok.ip_address).1 = true →
      xh.isSome = true →
      (upload_file hashFn root st now fs tok xh rel content nonce).1 = 403) := by
  unfold upload_file
  cases hauth : (auth_claim_session st now tok.host_id tok.ip_address).1 with
  | false => simp [hauth]
  | true =>
    cases xh with
    | none => simp [hauth]
    | some h => simp [hauth, save_file, hres, statusOfSaveErr]

/-- Witness for C6 (amended): an authorized PUT with a hash header for the
restricted `eula.txt` is answered 403 with the content store untouched. -/
theorem c6_restricted_upload_never_succeeds_witness :
    (upload_file (fun _ => "h") ["wd"] lockedStorage 10 []
        ⟨"alice1", "1.1.1.1"⟩ (some "h") "eula.txt" [1] "n").1 = 403 ∧
    (upload_file (fun _ => "h") ["wd"] lockedStorage 10 []
        ⟨"alice1", "1.1.1.1"⟩ (some "h") "eula.txt" [1] "n").2.2 = [] :=
  ⟨(c6_restricted_upload_never_succeeds (fun _ => "h") ["wd"] lockedStorage 10
      [] ⟨"alice1", "1.1.1.1"⟩ (some "h") "eula.txt" [1] "n"
      (by decide)).2.2 (by decide) (by decide),
   (c6_restricted_upload_never_succeeds (fun _ => "h") ["wd"] lockedStorage 10
      [] ⟨"alice1", "1.1.1.1"⟩ (some "h") "eula.txt" [1] "n"
      (by decide)).2.1⟩

/-! ## C7 — integrity atomicity -/

/-- C7: when a path passing all policy/validity checks is uploaded with a
digest of the streamed bytes different from the client-supplied hash,
`save_file` raises the integrity `ValueError` (HTTP 400 at the router), the
unique temp file is deleted, and the target file's content is exactly what it
was before the request (unchanged, or absent if it did not exist). -/
theorem c7_save_file_integrity_atomic (hashFn : Bytes → String) (root : FsKey)
    (fs : Fs) (rel : String) (content : Bytes) (clientHash nonce : String)
    (h1 : restrictedHit rel = false) (h2 : ignoredHit rel = false)
    (h3 : hasDotDot rel = false) (h4 : startsSlash rel = false)
    (h5 : (pyParts rel).contains "meta" = false)
    (hne : hashFn content ≠ clientHash) :
    (save_file hashFn root fs rel content clientHash nonce).1
      = some SaveErr.integrity ∧
    statusOfSaveErr SaveErr.integrity = 400 ∧
    fsLookup (save_file hashFn root fs rel content clientHash nonce).2
        (root ++ pyParts rel)
      = fsLookup fs (root ++ pyParts rel) ∧
    fsLookup (save_file hashFn root fs rel content clientHash nonce).2
        (tempKey (root ++ pyParts rel) nonce)
      = none := by
  have hbne : (hashFn content != clientHash) = true := bne_iff_ne.mpr hne
  have htne : tempKey (root ++ pyParts rel) nonce ≠ root ++ pyParts rel :=
    tempKey_ne_target _ _
  have hform : save_file hashFn root fs rel content clientHash nonce
      = (some SaveErr.integrity,
          fsErase (fsInsert fs (tempKey (root ++ pyParts rel) nonce) content)
            (tempKey (root ++ pyParts rel) nonce)) := by
    unfold save_file
    rw [h1, h2, h3, h4, h5, hbne]
    simp
  rw [hform]
  refine ⟨rfl, rfl, ?_, fsLookup_fsErase_self _ _⟩
  rw [fsLookup_fsErase_ne _ _ _ (Ne.symm htne)]
  simp only [fsInsert, fsLookup]
  rw [if_neg htne]
  exact fsLookup_fsErase_ne _ _ _ (Ne.symm htne)

/-- Witness for C7: a one-byte upload of `region/r.0.0.mca` with a wrong
hash yields the integrity error; the pre-existing target bytes survive and
the temp file is gone. -/
theorem c7_save_file_integrity_atomic_witness :
    (save_file (fun b => if b = [1] then "H1" else "H2")
        ["wd"] [(["wd", "region", "r.0.0.mca"], [9])] "region/r.0.0.mca"
        [1] "H2" "n").1 = some SaveErr.integrity ∧
    statusOfSaveErr SaveErr.integrity = 400 ∧
    fsLookup (save_file (fun b => if b = [1] then "H1" else "H2")
        ["wd"] [(["wd", "region", "r.0.0.mca"], [9])] "region/r.0.0.mca"
        [1] "H2" "n").2 (["wd"] ++ pyParts "region/r.0.0.mca")
      = fsLookup [(["wd", "region", "r.0.0.mca"], [9])]
          (["wd"] ++ pyParts "region/r.0.0.mca") ∧
    fsLookup (save_file (fun b => if b = [1] then "H1" else "H2")
        ["wd"] [(["wd", "region", "r.0.0.mca"], [9])] "region/r.0.0.mca"
        [1] "H2" "n").2 (tempKey (["wd"] ++ pyParts "region/r.0.0.mca") "n")
      = none :=
  c7_save_file_integrity_atomic
    (fun b => if b = [1] then "H1" else "H2")
    ["wd"] [(["wd", "region", "r.0.0.mca"], [9])] "region/r.0.0.mca"
    [1] "H2" "n" (by decide) (by decide) (by decide) (by decide) (by decide)
    (by decide)

/-! ## C10 — reserved `meta` paths -/

/-- C10 counterexample: the path `../meta/x` has a `meta` component, yet
`save_file` raises the *Invalid* `ValueError` (HTTP 400) — the `..` check
fires first — not the claimed Forbidden error (HTTP 403). -/
theorem c10_counterexample_meta_dotdot_invalid :
    ((pyParts "../meta/x").contains "meta") = true ∧
    save_file (fun _ => "h") ["wd"] [] "../meta/x" [1] "h" "n"
      = (some SaveErr.invalidPath, []) ∧
    statusOfSaveErr SaveErr.invalidPath = 400 := by
  decide

/-- C10 (amended): for every relative path containing a `meta` component
anywhere, `save_file` raises an error before writing anything (the store is
returned unchanged); the error maps to 403 or 400, and to exactly the
Forbidden meta error whenever no earlier check (restricted, ignored,
`..`/absolute) fires first; and `get_file` returns `none` even when a file
exists at the path — so the coordinator's `meta/` state is unreachable
through the `/world/files` endpoints. -/
theorem c10_meta_paths_unreachable (hashFn : Bytes → String)
    (root root2 : FsKey) (fs : Fs) (rel : String) (content : Bytes)
    (clientHash nonce : String)
    (hmeta : ((pyParts rel).contains "meta") = true) :
    (∃ e, save_file hashFn root fs rel content clientHash nonce
        = (some e, fs) ∧
      (statusOfSaveErr e = 403 ∨ statusOfSaveErr e = 400)) ∧
    (restrictedHit rel = false → ignoredHit rel = false →
      hasDotDot rel = false → startsSlash rel = false →
      save_file hashFn root fs rel content clientHash nonce
        = (some SaveErr.metaForbidden, fs)) ∧
    get_file root2 fs rel = none := by
  refine ⟨?_, ?_, by unfold get_file; rw [hmeta]; simp⟩
  · unfold save_file
    cases h1 : restrictedHit rel with
    | true => exact ⟨.restrictedFile, by simp, Or.inl rfl⟩
    | false =>
      cases h2 : ignoredHit rel with
      | true => exact ⟨.ignoredPolicy, by simp, Or.inl rfl⟩
      | false =>
        cases h3 : (hasDotDot rel || startsSlash rel) with
        | true => exact ⟨.invalidPath, by simp, Or.inr rfl⟩
        | false => exact ⟨.metaForbidden, by rw [hmeta]; simp, Or.inl rfl⟩
  · intro h1 h2 h3 h4
    unfold save_file
    rw [h1, h2, h3, h4, hmeta]
    simp

/-- Witness for C10 (amended): `meta/session.json` hits no earlier check, so
`save_file` answers the Forbidden meta error with the store unchanged, and
`get_file` returns `none` although the session document exists on disk. -/
theorem c10_meta_paths_unreachable_witness :
    save_file (fun _ => "h") ["wd"] [(["wd", "meta", "session.json"], [9])]
        "meta/session.json" [1] "h" "n"
      = (some SaveErr.metaForbidden, [(["wd", "meta", "session.json"], [9])]) ∧
    get_file ["wd"] [(["wd", "meta", "session.json"], [9])] "meta/session.json"
      = none :=
  ⟨(c10_meta_paths_unreachable (fun _ => "h") ["wd"] ["wd"]
      [(["wd", "meta", "session.json"], [9])] "meta/session.json" [1] "h" "n"
      (by decide)).2.1 (by decide) (by decide) (by decide) (by decide),
   (c10_meta_paths_unreachable (fun _ => "h") ["wd"] ["wd"]
      [(["wd", "meta", "session.json"], [9])] "meta/session.json" [1] "h" "n"
      (by decide)).2.2⟩

/-! ## Peer uploader retry loop (`client/services/sync_service.py`,
`Uploader.upload_file`)

The uploader computes the file's SHA-256 *once*, before the retry loop, and
stores it in the `X-File-Hash` header dict; each of the at most
`MAX_RETRIES = 3` attempts re-opens the file (streaming its *current* bytes)
but reuses the same header.  The file's bytes over time are modelled as
`bytesAt : Nat → Bytes` (index = attempt number; the digest is taken from
the bytes as of attempt 0), and the network's behaviour per attempt as
`eventAt : Nat → AttemptEvent`. -/

/-- What the network does on one attempt: an HTTP response status, or a
connection error / timeout. -/
inductive AttemptEvent where
  | httpStatus (code : Nat)
  | connError
deriving Repr, DecidableEq

/-- One attempted request: the bytes streamed and the `X-File-Hash` header. -/
structure Attempt where
  body : Bytes
  xFileHash : String
deriving Repr, DecidableEq

/-- Terminal outcome of `Uploader.upload_file`'s retry loop. -/
inductive UploadOutcome where
  | uploaded            -- `return True` (status 201 or 210)
  | sessionLost         -- `raise SessionLostError` (status 401)
  | dropped             -- `return False` on 403 (restricted — log and drop)
  | failedNoRetry (code : Nat)  -- `return False` on any other status (e.g. 404)
  | gaveUp              -- fell out of the loop after MAX_RETRIES attempts
deriving Repr, DecidableEq

/-- The retry loop body, in source order of the status tests.  `hashHeader`
is fixed for the whole loop — the source's 400-branch comment says
"recalculate hash and upload again" but the `continue` re-enters the loop
without touching `file_hash`.  Returns the outcome and the attempts made. -/
def uploadAttempts (hashHeader : String) (bytesAt : Nat → Bytes)
    (eventAt : Nat → AttemptEvent) : Nat → Nat → UploadOutcome × List Attempt
  | _, 0 => (.gaveUp, [])
  | i, remaining + 1 =>
    let sent : Attempt := { body := bytesAt i, xFileHash := hashHeader }
    match eventAt i with
    | .connError =>
      -- aiohttp.ClientConnectorError / ServerDisconnectedError / TimeoutError
      let r := uploadAttempts hashHeader bytesAt eventAt (i + 1) remaining
      (r.1, sent :: r.2)
    | .httpStatus code =>
      if code = 210 ∨ code = 201 then (.uploaded, [sent])
      else if code = 401 then (.sessionLost, [sent])
      else if code = 400 then
        let r := uploadAttempts hashHeader bytesAt eventAt (i + 1) remaining
        (r.1, sent :: r.2)
      else if code = 403 then (.dropped, [sent])
      else if code = 500 ∨ code = 502 ∨ code = 503 ∨ code = 504 then
        let r := uploadAttempts hashHeader bytesAt eventAt (i + 1) remaining
        (r.1, sent :: r.2)
      else (.failedNoRetry code, [sent])

/-- Model of `Uploader.upload_file`: hash once (from the bytes as of attempt 0), then
at most 3 attempts. -/
def uploader_upload_file (hashFn : Bytes → String) (bytesAt : Nat → Bytes)
    (eventAt : Nat → AttemptEvent) : UploadOutcome × List Attempt :=
  uploadAttempts (hashFn (bytesAt 0)) bytesAt eventAt 0 3

/-- A toy injective-on-this-input digest for concrete runs. -/
def toyHash (b : Bytes) : String := String.mk (b.map (fun n => Char.ofNat (65 + n)))

/-- C8: the integrity retry does *not* recompute the hash.  In a run where
the file's bytes change from `[1]` to `[2]` after the initial digest and the
coordinator answers 400 to every attempt, the loop makes exactly 3 attempts
and gives up; the second and third attempts stream the new bytes `[2]` but
still carry `X-File-Hash = toyHash [1]`, which differs from the digest of the
bytes they actually send — contradicting "recomputing the file hash before
the integrity retry" (and the source's own `# Retry: recalculate hash and
upload again` comment). -/
theorem c8_integrity_retry_keeps_stale_hash :
    uploader_upload_file toyHash (fun i => if i = 0 then [1] else [2])
        (fun _ => .httpStatus 400)
      = (.gaveUp,
          [{ body := [1], xFileHash := toyHash [1] },
           { body := [2], xFileHash := toyHash [1] },
           { body := [2], xFileHash := toyHash [1] }]) ∧
    toyHash [1] ≠ toyHash [2] := by
  decide

/-! ## Peer heartbeat monitor (`client/client.py`, `_run_heartbeat_loop`)

One iteration of the loop, after `session_manager.heartbeat_session()` has
returned `(body, status_code)`.  The body of a 200 response is the
coordinator's `{"status": "ok"}` (see `heartbeat_route`); on non-200 the
session manager returns `None` for the body. -/

/-- What one loop iteration decides to do. -/
inductive HBAction where
  | continueHosting       -- 200 and the consistency check passed
  | emergencyStop         -- 200 but `updated.get("host_id")` ≠ own id: stop & break
  | stopSkipRelease       -- 401: stop services, skip the release call, break
  | enterOffline          -- fail_count reached MAX_RETRIES: offline sub-mode
  | retryNext             -- transient failure, stay in the loop
deriving Repr, DecidableEq

/-- One iteration of `_run_heartbeat_loop` (after the `asyncio.sleep` of
`heartbeat_interval`): returns the action and the new `fail_count`. -/
def heartbeat_loop_step (myHostId : String) (failCount : Nat)
    (body : Option HeartbeatBody) (code : Nat) : HBAction × Nat :=
  if code = 200 then
    -- fail_count = 0; then `updated.get("host_id") != self._settings.host_id`
    match body with
    | some b => if b.host_id ≠ some myHostId then (.emergencyStop, 0)
                else (.continueHosting, 0)
    | none => (.emergencyStop, 0)
  else if code = 401 then (.stopSkipRelease, failCount)
  else
    let f := failCount + 1
    if 3 ≤ f then (.enterOffline, f) else (.retryNext, f)

/-- C9: on the very first *successful* heartbeat the client stops hosting
instead of continuing.  The coordinator's heartbeat endpoint answers
`200 {"status": "ok"}` with no `host_id` field, so the loop's consistency
check `updated.get("host_id") != self._settings.host_id` compares `None`
against the client's id and triggers the emergency stop — contradicting
"on every successful (200) heartbeat it continues hosting". -/
theorem c9_first_successful_heartbeat_stops_hosting :
    (heartbeat_route lockedStorage).1.1 = 200 ∧
    heartbeat_loop_step "alice1" 0 (some (heartbeat_route lockedStorage).1.2)
        (heartbeat_route lockedStorage).1.1
      = (.emergencyStop, 0) ∧
    (heartbeat_loop_step "alice1" 0 (some (heartbeat_route lockedStorage).1.2)
        (heartbeat_route lockedStorage).1.1).1 ≠ .continueHosting := by
  decide

end PeerHost
